import Mathlib

/-!
Verification development for the snom-dialer repository (src/snom.py and
src/snom-dialer.py).  The Python code is shallowly embedded: pure string
manipulation becomes Lean functions on `String` and `List Char`; HTTP traffic
is modelled by a network oracle `net : String -> Except String Nat` mapping a
wire URL to either a connection failure (the message carried by
SnomConnectionError) or an HTTP status code; Qt signal emission inside the
callback server is modelled by explicit action traces.
-/

namespace SnomDialer

/-- Concatenation of the images of `f` over a list (used to state charwise
descriptions of string rewriting). -/
def cMap (f : α → List β) : List α → List β
  | [] => []
  | a :: as => f a ++ cMap f as

/-- Python `str.replace(old, new)` for a one-character pattern `old`:
every occurrence of the character is replaced, left to right. -/
def pyReplaceChar (old : Char) (new : List Char) : List Char → List Char
  | [] => []
  | c :: rest =>
      if c = old then new ++ pyReplaceChar old new rest
      else c :: pyReplaceChar old new rest

/-- Charwise description of the hash/star escaping done in
`Snom.send_request` (src/snom.py line 157). -/
def encChar (c : Char) : List Char :=
  if c = '#' then ['%', '2', '3']
  else if c = '*' then ['%', '2', 'A'] else [c]

/-- The escaping applied in `Snom.send_request` before transmission, and also
used verbatim by the UI layer in `DialWindow.dial` (src/snom-dialer.py lines
224-228): `url.replace('#', '%23').replace('*', '%2A')`. -/
def encodeUrl (s : String) : String :=
  String.mk (pyReplaceChar '*' ['%', '2', 'A'] (pyReplaceChar '#' ['%', '2', '3'] s.data))

/-- A Snom phone client (`Snom.__init__`, src/snom.py lines 21-25). -/
structure Client where
  ip : String
  username : String
  password : String

/-- The command URL prefix built in `Snom.__init__`. -/
def Client.cmd_url (c : Client) : String :=
  "https://" ++ c.ip ++ "/command.htm?"

/-- A network oracle: what `requests.post` does for a given (already escaped)
wire URL.  `Except.error m` is a `requests.RequestException` with message `m`;
`Except.ok s` is a response with HTTP status `s`. -/
abbrev Net := String → Except String Nat

/-- `Snom.send_request` (src/snom.py lines 142-168): escape the URL, POST it,
return the response; a transport failure is re-raised as
`SnomConnectionError` carrying the underlying message. -/
def send_request (net : Net) (url : String) : Except String Nat :=
  net (encodeUrl url)

/-- Status threshold `200 <= status < 400` used throughout src/snom.py. -/
def isSuccessStatus (s : Nat) : Bool :=
  decide (200 ≤ s) && decide (s < 400)

/-- Whether one `send_request` attempt counted as a success in `Snom.answer`:
a response arrived and its status is in `[200, 400)`. -/
def attemptOk : Except String Nat → Bool
  | Except.ok s => isSuccessStatus s
  | Except.error _ => false

/-- `Snom.key_events` (src/snom.py lines 27-28): sends `key=<events>` with the
argument transmitted verbatim (no separator insertion happens here). -/
def key_events (net : Net) (c : Client) (events : String) : Except String Unit :=
  (send_request net (c.cmd_url ++ "key=" ++ events)).map fun _ => ()

/-- The wire URL transmitted by `Snom.key_events` for a given argument. -/
def keyEventsWire (c : Client) (events : String) : String :=
  encodeUrl (c.cmd_url ++ "key=" ++ events)

/-- `Snom.dial` (src/snom.py lines 30-31). -/
def dial (net : Net) (c : Client) (number : String) : Except String Unit :=
  (send_request net (c.cmd_url ++ "number=" ++ number)).map fun _ => ()

/-- `Snom.hangup` (src/snom.py lines 33-34). -/
def hangup (net : Net) (c : Client) : Except String Unit :=
  (send_request net (c.cmd_url ++ "key=CANCEL")).map fun _ => ()

/-- `Snom.hangup_all` (src/snom.py lines 36-37). -/
def hangup_all (net : Net) (c : Client) : Except String Unit :=
  (send_request net (c.cmd_url ++ "RELEASE_ALL_CALLS")).map fun _ => ()

/-- `Snom.answer` loop body (src/snom.py lines 48-57): walk the key list,
return on the first attempt whose status is in `[200, 400)`, catching
`SnomConnectionError` per attempt; the second component records which keys
were attempted, in order. -/
def answerLoop (net : Net) (c : Client) : List String → (Bool × String) × List String
  | [] => ((false, "Failed to answer call using keys: ENTER, OFFHOOK"), [])
  | k :: rest =>
      match send_request net (c.cmd_url ++ "key=" ++ k) with
      | Except.ok s =>
          if isSuccessStatus s then ((true, "Answered via " ++ k), [k])
          else
            let r := answerLoop net c rest
            (r.fst, k :: r.snd)
      | Except.error _ =>
          let r := answerLoop net c rest
          (r.fst, k :: r.snd)

/-- `Snom.answer` (src/snom.py lines 39-57): tries `ENTER` then `OFFHOOK`. -/
def answer (net : Net) (c : Client) : (Bool × String) × List String :=
  answerLoop net c ["ENTER", "OFFHOOK"]

/-- `Snom.test_control` (src/snom.py lines 59-74): one `key=CANCEL` request,
`SnomConnectionError` caught and turned into a `(False, message)` result. -/
def test_control (net : Net) (c : Client) : Bool × String :=
  match send_request net (c.cmd_url ++ "key=CANCEL") with
  | Except.ok s =>
      if isSuccessStatus s then (true, "Connection and control test succeeded")
      else (false, "Unexpected HTTP status: " ++ toString s)
  | Except.error e => (false, "Connection failed: " ++ e)

/-- UTF-8 encoding of a character as a list of byte values, mirroring how
Python percent-encoding operates on the UTF-8 bytes of a string. -/
def utf8Bytes (c : Char) : List Nat :=
  if c.toNat < 128 then [c.toNat]
  else if c.toNat < 2048 then [192 + c.toNat / 64, 128 + c.toNat % 64]
  else if c.toNat < 65536 then
    [224 + c.toNat / 4096, 128 + (c.toNat / 64) % 64, 128 + c.toNat % 64]
  else
    [240 + c.toNat / 262144, 128 + (c.toNat / 4096) % 64, 128 + (c.toNat / 64) % 64,
     128 + c.toNat % 64]

/-- Uppercase hexadecimal digit, as produced by `urllib.parse.quote`. -/
def hexDigitUpper (n : Nat) : Char :=
  if n < 10 then Char.ofNat (48 + n) else Char.ofNat (55 + n)

/-- The bytes `urllib.parse.quote` never encodes: ASCII alphanumerics and
underscore, dot, hyphen, tilde. -/
def alwaysSafeByte (b : Nat) : Bool :=
  (decide (48 ≤ b) && decide (b ≤ 57)) ||
  (decide (65 ≤ b) && decide (b ≤ 90)) ||
  (decide (97 ≤ b) && decide (b ≤ 122)) ||
  b = 95 || b = 46 || b = 45 || b = 126

/-- Percent-encode one byte. -/
def percentByte (b : Nat) : List Char :=
  ['%', hexDigitUpper (b / 16), hexDigitUpper (b % 16)]

/-- One byte of `urllib.parse.quote_plus` output: space becomes `+`, safe
bytes pass through, everything else is percent-encoded. -/
def quotePlusByte (b : Nat) : List Char :=
  if b = 32 then ['+']
  else if alwaysSafeByte b then [Char.ofNat b]
  else percentByte b

/-- `urllib.parse.quote_plus` with default arguments, as applied to every
substituted placeholder value in `DialWindow._fill_placeholder_url`
(src/snom-dialer.py line 349). -/
def quotePlus (s : String) : String :=
  String.mk (cMap quotePlusByte (cMap utf8Bytes s.data))

/-- Safe characters of the `_q` helper inside `Snom.set_action_urls`
(src/snom.py lines 123-125): `quote(v, safe="$:/?=,+-_.~")` keeps the always
safe bytes plus this explicit set. -/
def settingsSafeByte (b : Nat) : Bool :=
  alwaysSafeByte b || b = 36 || b = 58 || b = 47 || b = 63 || b = 61 || b = 44 || b = 43

/-- One byte of `quote(v, safe="$:/?=,+-_.~")` output. -/
def settingsQuoteByte (b : Nat) : List Char :=
  if settingsSafeByte b then [Char.ofNat b] else percentByte b

/-- The `_q` helper of `Snom.set_action_urls`. -/
def settingsQuote (s : String) : String :=
  String.mk (cMap settingsQuoteByte (cMap utf8Bytes s.data))

/-- The fixed query-parameter template pushed into every Action URL setting
(`common_params`, src/snom.py lines 93-111). -/
def common_params : String :=
  "remote=$remote&display_remote=$display_remote&local=$local&call_id=$call-id&active_url=$active_url&active_user=$active_user&active_host=$active_host&csta_id=$csta_id&display_local=$display_local&expansion_module=$expansion_module&active_key=$active_key&phone_ip=$phone_ip&local_ip=$local_ip&nr_ongoing_calls=$nr_ongoing_calls&context_url=$context_url&cancel_reason=$cancel_reason&longpress_key=$longpress_key"

/-- The six Action URL settings built in `Snom.set_action_urls`
(src/snom.py lines 113-120), in insertion order. -/
def actionUrlSettings (base_url : String) : List (String × String) :=
  [("action_incoming_url", base_url ++ "/snom/incoming?" ++ common_params),
   ("action_connected_url", base_url ++ "/snom/connected?" ++ common_params),
   ("action_outgoing_url", base_url ++ "/snom/outgoing?" ++ common_params),
   ("action_disconnected_url", base_url ++ "/snom/disconnected?" ++ common_params),
   ("action_onhook_url", base_url ++ "/snom/onhook?" ++ common_params),
   ("action_offhook_url", base_url ++ "/snom/offhook?" ++ common_params)]

/-- The `settings.htm` URL built in `Snom.set_action_urls`
(src/snom.py lines 127-128). -/
def settingsSaveUrl (c : Client) (base_url : String) : String :=
  "https://" ++ c.ip ++ "/settings.htm?settings=save&" ++
    String.intercalate "&"
      ((actionUrlSettings base_url).map fun kv => kv.fst ++ "=" ++ settingsQuote kv.snd)

/-- `Snom.set_action_urls` (src/snom.py lines 76-140): one settings request,
`SnomConnectionError` caught and turned into a `(False, message)` result. -/
def set_action_urls (net : Net) (c : Client) (base_url : String) : Bool × String :=
  match send_request net (settingsSaveUrl c base_url) with
  | Except.ok s =>
      if isSuccessStatus s then (true, "Action URLs updated")
      else (false, "Unexpected HTTP status while updating Action URLs: " ++ toString s)
  | Except.error e => (false, "Failed to update Action URLs: " ++ e)

/-! ## The callback HTTP server (`ActionUrlServer`, src/snom-dialer.py lines 943-1030) -/

/-- Flat query-parameter map of one inbound callback request
(`request.args.to_dict(flat=True)`). -/
abbrev QueryMap := List (String × String)

/-- The routes exposed by `ActionUrlServer._build_app`
(src/snom-dialer.py lines 958-1015). -/
inductive Route
  | incoming | connected | outgoing | disconnected | onhook | offhook | health
deriving DecidableEq, Repr

/-- The signal channels of `ActionEventSignal` (src/snom-dialer.py lines
933-940); `ended` is the channel the disconnected and onhook routes share. -/
inductive SKind
  | incoming | connected | ended | reachable | outgoing | onhook | offhook
deriving DecidableEq, Repr

/-- One statement of a route-handler body: a signal emission or the final
HTTP response. -/
inductive ServerAction
  | emit (k : SKind) (data : QueryMap)
  | respond (status : Nat) (body : String)
deriving DecidableEq, Repr

/-- The statement sequence of each route handler of
`ActionUrlServer._build_app`, in source order: the onhook handler emits
`ended` then `onhook` (lines 998-999), the offhook handler emits `reachable`
then `offhook` (lines 1007-1008), and every handler ends by returning
status 200. -/
def routeActions : Route → QueryMap → List ServerAction
  | Route.incoming, d => [ServerAction.emit SKind.incoming d, ServerAction.respond 200 "OK"]
  | Route.connected, d => [ServerAction.emit SKind.connected d, ServerAction.respond 200 "OK"]
  | Route.outgoing, d => [ServerAction.emit SKind.outgoing d, ServerAction.respond 200 "OK"]
  | Route.disconnected, d => [ServerAction.emit SKind.ended d, ServerAction.respond 200 "OK"]
  | Route.onhook, d =>
      [ServerAction.emit SKind.ended d, ServerAction.emit SKind.onhook d,
       ServerAction.respond 200 "OK"]
  | Route.offhook, d =>
      [ServerAction.emit SKind.reachable d, ServerAction.emit SKind.offhook d,
       ServerAction.respond 200 "OK"]
  | Route.health, _ => [ServerAction.respond 200 "ok"]

/-- Execute a route-handler body with a fallible dispatch function.  The
handlers of `_build_app` contain no try/except, so a raising dispatch
propagates out of the handler and no response is produced by it. -/
def runActions (emit : SKind → QueryMap → Except String Unit) :
    List ServerAction → Except String (Nat × String)
  | [] => Except.error "handler fell through without a response"
  | ServerAction.emit k d :: rest =>
      match emit k d with
      | Except.ok _ => runActions emit rest
      | Except.error e => Except.error e
  | ServerAction.respond s b :: _ => Except.ok (s, b)

/-- The events a handler body publishes, in order. -/
def emittedEvents (as : List ServerAction) : List (SKind × QueryMap) :=
  as.filterMap fun a =>
    match a with
    | ServerAction.emit k d => some (k, d)
    | ServerAction.respond _ _ => none

/-- The first HTTP response of a handler body. -/
def responseOf : List ServerAction → Option (Nat × String)
  | [] => none
  | ServerAction.emit _ _ :: rest => responseOf rest
  | ServerAction.respond s b :: _ => some (s, b)

/-- True when no emission occurs after the first response, i.e. every publish
is visible before the HTTP response completes. -/
def emitsBeforeResponse : List ServerAction → Bool
  | [] => true
  | ServerAction.emit _ _ :: rest => emitsBeforeResponse rest
  | ServerAction.respond _ _ :: rest =>
      rest.all fun a =>
        match a with
        | ServerAction.emit _ _ => false
        | ServerAction.respond _ _ => true

/-! ## Port selection (`DialWindow.start_action_server`, src/snom-dialer.py
lines 416-452, and `ActionUrlServer.__init__`, lines 948-956) -/

/-- `ActionUrlServer.__init__` builds the WSGI server at construction time to
fail fast: a failed bind surfaces as an `OSError` to the caller. -/
def actionUrlServerInit (bindOk : Nat → Bool) (port : Nat) : Except String Nat :=
  if bindOk port then Except.ok port else Except.error "OSError: port unavailable"

/-- The candidate port list of `start_action_server` (line 423):
`[desired_port] + list(range(desired_port + 1, desired_port + 21))`. -/
def candidate_ports (desired : Nat) : List Nat :=
  desired :: (List.range 20).map fun i => desired + 1 + i

/-- The construction loop of `start_action_server` (lines 423-429): first
successful bind wins, `OSError` per port is caught and the next port tried. -/
def tryBindPorts (bindOk : Nat → Bool) : List Nat → Option Nat
  | [] => none
  | p :: rest =>
      match actionUrlServerInit bindOk p with
      | Except.ok q => some q
      | Except.error _ => tryBindPorts bindOk rest

/-- Observable outcome of `DialWindow.start_action_server`: the bound port of
the started server, if any, and whether the flow proceeded to configure the
phone (`set_action_urls` call on line 439, only reached with a server). -/
structure StartResult where
  server : Option Nat
  configuredPhone : Bool
deriving DecidableEq, Repr

/-- `DialWindow.start_action_server` (lines 416-452): when no candidate port
binds, the function logs and returns without starting anything (lines
430-432); otherwise the server is started and the phone configured. -/
def start_action_server (bindOk : Nat → Bool) (desired : Nat) : StartResult :=
  match tryBindPorts bindOk (candidate_ports desired) with
  | none => { server := none, configuredPhone := false }
  | some p => { server := some p, configuredPhone := true }

/-! ## Reachability probe (`DialWindow._verify_phone_reachability`,
src/snom-dialer.py lines 467-502) -/

/-- Observable trace of one probe run: the key commands it schedules (delay in
milliseconds paired with the query suffix sent through `send_request`), the
outcome of the body (`Except.error` when the body raised, otherwise the
returned boolean), and the reachable-channel subscription list after the
`finally` block ran. -/
structure ProbeTrace where
  schedule : List (Nat × String)
  outcome : Except String Bool
  finalSubs : List Nat
deriving Repr

/-- Whether a reachable-channel publish on a dispatcher with subscription
list `subs` delivers to handler `h`: Qt invokes exactly the connected
handlers. -/
def deliversTo (subs : List Nat) (h : Nat) : Bool :=
  decide (h ∈ subs)

/-- `DialWindow._verify_phone_reachability`.  The handler `h` is connected to
the `reachable` signal first (line 479); inside `try`, `key=OFFHOOK` is sent
immediately with its connection error caught (lines 481-484), `key=ONHOOK` is
scheduled 500 ms later (line 486), loop exit is scheduled at `timeoutMs`
(line 489, default 3000), and the wait records whether the reachable event
arrived before the timeout; the `finally` block (lines 491-495) disconnects
`h` on every exit path.  `arrival` is the time, if any, at which a reachable
event is published; `exn` is the exception, if any, the body raises. -/
def verify_phone_reachability (subs : List Nat) (h : Nat) (arrival : Option Nat)
    (exn : Option String) (timeoutMs : Nat := 3000) : ProbeTrace :=
  let subsConnected := subs ++ [h]
  let received : Bool :=
    match arrival with
    | some t => decide (t < timeoutMs)
    | none => false
  { schedule := [(0, "key=OFFHOOK"), (500, "key=ONHOOK")]
    outcome :=
      match exn with
      | some e => Except.error e
      | none => Except.ok received
    finalSubs := subsConnected.filter fun x => x ≠ h }

/-! ## Placeholder substitution (`DialWindow._fill_placeholder_url`,
src/snom-dialer.py lines 314-351) -/

/-- Python regex word character over the ASCII range, as used by the pattern
that matches a placeholder name. -/
def isWordChar (c : Char) : Bool :=
  c.isAlphanum || c = '_'

/-- One-pass scanner implementing the substitution semantics of
`re.sub` with a brace-delimited word pattern: `none` state outside a
candidate placeholder, `some key` state after an opening brace with the
word characters read so far (reversed).  A candidate that is not closed by
a brace right after a nonempty word run is emitted literally, matching the
regex engine restarting after a failed match. -/
def subScan (repl : List Char → List Char) : Option (List Char) → List Char → List Char
  | none, [] => []
  | some key, [] => '{' :: key.reverse
  | none, c :: rest =>
      if c = '{' then subScan repl (some []) rest
      else c :: subScan repl none rest
  | some key, c :: rest =>
      if isWordChar c then subScan repl (some (c :: key)) rest
      else if c = '}' ∧ key ≠ [] then repl key.reverse ++ subScan repl none rest
      else
        '{' :: key.reverse ++
          (if c = '{' then subScan repl (some []) rest
           else c :: subScan repl none rest)

/-- Lookup in the flat string map of an event (Python `dict.get`). -/
def dataGet (data : QueryMap) (k : String) : Option String :=
  (data.find? fun p => p.fst = k).map Prod.snd

/-- The known placeholder names of the `values` dict built in
`_fill_placeholder_url` (lines 325-344), excluding `timestamp`. -/
def knownFields : List String :=
  ["remote", "display_remote", "local", "call_id", "display_local",
   "active_url", "active_user", "active_host", "csta_id", "expansion_module",
   "active_key", "phone_ip", "local_ip", "nr_ongoing_calls", "context_url",
   "cancel_reason", "longpress_key"]

/-- The `values` dict of `_fill_placeholder_url`: each known field maps to
`data.get(k) or ""` and `timestamp` maps to the current time; any other key
is absent. -/
def valuesGet (data : QueryMap) (now : String) (k : String) : Option String :=
  if k = "timestamp" then some now
  else if knownFields.contains k then some ((dataGet data k).getD "") else none

/-- The raw value the `repl` closure (lines 346-349) substitutes for a
placeholder before URL-encoding: `values.get(key, data.get(key, ""))`. -/
def replRaw (data : QueryMap) (now : String) (k : String) : String :=
  (valuesGet data now k).getD ((dataGet data k).getD "")

/-- The encoded value substituted for a placeholder: `quote_plus(str(raw))`. -/
def replEncoded (data : QueryMap) (now : String) (k : String) : String :=
  quotePlus (replRaw data now k)

/-- `DialWindow._fill_placeholder_url` with the current time passed in as
`now` (the code binds it to `datetime.now().isoformat()`). -/
def fill_placeholder_url (template : String) (data : QueryMap) (now : String) : String :=
  String.mk
    (subScan (fun key => (replEncoded data now (String.mk key)).data) none template.data)

/-! ## Duration formatting (`DialWindow._format_duration`,
src/snom-dialer.py lines 564-572) -/

/-- Zero-padding of Python `f"{n:02}"` for a natural number. -/
def pad2 (n : Nat) : String :=
  if n < 10 then "0" ++ toString n else toString n

/-- `DialWindow._format_duration`: clamp negatives to zero, then divmod into
hours, minutes, seconds; render `mm:ss` when the hour part is zero and
`h:mm:ss` otherwise. -/
def format_duration (seconds : Int) : String :=
  let s0 : Nat := seconds.toNat
  let h := s0 / 3600
  let rem := s0 % 3600
  let m := rem / 60
  let s := rem % 60
  if h = 0 then pad2 m ++ ":" ++ pad2 s
  else toString h ++ ":" ++ pad2 m ++ ":" ++ pad2 s

/-! ## UI dial path (`DialWindow.dial`, src/snom-dialer.py lines 219-229) -/

/-- Python `";".join(text)`: interleave a semicolon between the characters. -/
def interChars : List Char → List Char
  | [] => []
  | [c] => [c]
  | c :: rest => c :: ';' :: interChars rest

/-- The argument `DialWindow.dial` passes to `Snom.key_events` when shift is
held (lines 222-226): if the text already contains a semicolon it is
hash/star pre-encoded as is, otherwise semicolons are first inserted between
each character. -/
def dialKeyEventsArg (text : String) : String :=
  if text.data.contains ';' then encodeUrl text
  else encodeUrl (String.mk (interChars text.data))

/-! ## Helper lemmas -/

lemma cMap_append (f : α → List β) (l₁ l₂ : List α) :
    cMap f (l₁ ++ l₂) = cMap f l₁ ++ cMap f l₂ := by
  induction l₁ with
  | nil => rfl
  | cons a as ih => simp [cMap, ih]

lemma pyReplaceChar_append (old : Char) (new l₁ l₂ : List Char) :
    pyReplaceChar old new (l₁ ++ l₂) =
      pyReplaceChar old new l₁ ++ pyReplaceChar old new l₂ := by
  induction l₁ with
  | nil => rfl
  | cons c cs ih =>
      by_cases hc : c = old <;> simp [pyReplaceChar, hc, ih]

/-- The two sequential replaces of `send_request` act charwise. -/
lemma encodeUrl_data (s : String) : (encodeUrl s).data = cMap encChar s.data := by
  show pyReplaceChar '*' ['%', '2', 'A'] (pyReplaceChar '#' ['%', '2', '3'] s.data) =
    cMap encChar s.data
  induction s.data with
  | nil => rfl
  | cons c cs ih =>
      by_cases h1 : c = '#'
      · subst h1; simp [pyReplaceChar, cMap, encChar, ih]
      · by_cases h2 : c = '*'
        · subst h2; simp [pyReplaceChar, cMap, encChar, h1, ih]
        · simp [pyReplaceChar, cMap, encChar, h1, h2, ih]

lemma encChar_no_hash_star (c d : Char) (hd : d ∈ encChar c) : d ≠ '#' ∧ d ≠ '*' := by
  by_cases h1 : c = '#'
  · subst h1; simp [encChar] at hd
    rcases hd with h | h | h <;> subst h <;> exact ⟨by decide, by decide⟩
  · by_cases h2 : c = '*'
    · subst h2; simp [encChar, h1] at hd
      rcases hd with h | h | h <;> subst h <;> exact ⟨by decide, by decide⟩
    · simp [encChar, h1, h2] at hd
      subst hd; exact ⟨h1, h2⟩

lemma cMap_encChar_no_hash_star (l : List Char) (d : Char)
    (hd : d ∈ cMap encChar l) : d ≠ '#' ∧ d ≠ '*' := by
  induction l with
  | nil => simp [cMap] at hd
  | cons c cs ih =>
      simp only [cMap, List.mem_append] at hd
      rcases hd with h | h
      · exact encChar_no_hash_star c d h
      · exact ih h

lemma cMap_encChar_fixed (c : Char) : cMap encChar (encChar c) = encChar c := by
  by_cases h1 : c = '#'
  · subst h1; rfl
  · by_cases h2 : c = '*'
    · subst h2; rfl
    · simp [encChar, h1, h2, cMap]

lemma cMap_encChar_idem (l : List Char) :
    cMap encChar (cMap encChar l) = cMap encChar l := by
  induction l with
  | nil => rfl
  | cons c cs ih =>
      simp only [cMap, cMap_append, ih, cMap_encChar_fixed]

lemma string_data_append (a b : String) : (a ++ b).data = a.data ++ b.data := rfl

/-! ## Claim theorems -/

/-- C5: every command URL handed to `send_request` is transmitted with each
`#` replaced by `%23` and each `*` replaced by `%2A` (the charwise
decomposition through `encChar`), the transmitted URL contains no remaining
`#` or `*`, and no double-encoding is introduced: encoding is idempotent, so
a UI-layer pre-encode (`DialWindow.dial` applies the same replaces before the
client does) yields exactly the wire URL of the raw input. -/
theorem hash_star_percent_encoding (s : String) :
    (encodeUrl s).data = cMap encChar s.data ∧
    (send_request (fun u => Except.error u) s = Except.error (encodeUrl s)) ∧
    ('#' ∉ (encodeUrl s).data ∧ '*' ∉ (encodeUrl s).data) ∧
    encodeUrl (encodeUrl s) = encodeUrl s ∧
    (∀ p : String, encodeUrl (p ++ encodeUrl s) = encodeUrl (p ++ s)) := by
  refine ⟨encodeUrl_data s, rfl, ⟨?_, ?_⟩, ?_, ?_⟩
  · intro hmem
    rw [encodeUrl_data] at hmem
    exact (cMap_encChar_no_hash_star s.data '#' hmem).1 rfl
  · intro hmem
    rw [encodeUrl_data] at hmem
    exact (cMap_encChar_no_hash_star s.data '*' hmem).2 rfl
  · have h : (encodeUrl (encodeUrl s)).data = (encodeUrl s).data := by
      rw [encodeUrl_data, encodeUrl_data, cMap_encChar_idem]
    cases henc : encodeUrl (encodeUrl s)
    cases henc2 : encodeUrl s
    rw [henc, henc2] at h
    exact congrArg String.mk h
  · intro p
    have h : (encodeUrl (p ++ encodeUrl s)).data = (encodeUrl (p ++ s)).data := by
      rw [encodeUrl_data, encodeUrl_data, string_data_append, string_data_append,
        cMap_append, cMap_append, encodeUrl_data, cMap_encChar_idem]
    cases h1 : encodeUrl (p ++ encodeUrl s)
    cases h2 : encodeUrl (p ++ s)
    rw [h1, h2] at h
    exact congrArg String.mk h

/-- C9: the duration formatter clamps negative inputs to zero, renders
`mm:ss` with two-digit zero padding below one hour and `h:mm:ss` at or
beyond one hour, and produces the documented example outputs. -/
theorem duration_formatting :
    format_duration 0 = "00:00" ∧
    format_duration 65 = "01:05" ∧
    format_duration 3661 = "1:01:01" ∧
    (∀ n : Int, n < 0 → format_duration n = "00:00") ∧
    (∀ n : Int, 0 ≤ n → n < 3600 →
      format_duration n = pad2 (n.toNat / 60) ++ ":" ++ pad2 (n.toNat % 60)) ∧
    (∀ n : Int, 3600 ≤ n →
      format_duration n =
        toString (n.toNat / 3600) ++ ":" ++ pad2 (n.toNat % 3600 / 60) ++ ":" ++
          pad2 (n.toNat % 60)) := by
  refine ⟨rfl, rfl, rfl, ?_, ?_, ?_⟩
  · intro n hn
    have h0 : n.toNat = 0 := Int.toNat_of_nonpos (le_of_lt hn)
    simp [format_duration, h0]
    rfl
  · intro n h0 h1
    have hlt : n.toNat < 3600 := by omega
    have hdiv : n.toNat / 3600 = 0 := Nat.div_eq_of_lt hlt
    have hmod : n.toNat % 3600 = n.toNat := Nat.mod_eq_of_lt hlt
    simp [format_duration, hdiv, hmod]
  · intro n h0
    have hge : 3600 ≤ n.toNat := by omega
    have hdiv : n.toNat / 3600 ≠ 0 := by
      intro h
      have := (Nat.div_eq_zero_iff (by norm_num : 0 < 3600)).mp h
      omega
    have hmod : n.toNat % 3600 % 60 = n.toNat % 60 :=
      Nat.mod_mod_of_dvd _ (by norm_num)
    simp [format_duration, hdiv, hmod]

/-- Witness for C9: the theorem applied at the concrete inputs -7, 65 and
3661, discharging its hypotheses there. -/
theorem duration_formatting_witness :
    format_duration (-7) = "00:00" ∧
    format_duration 65 = pad2 1 ++ ":" ++ pad2 5 ∧
    format_duration 3661 = toString 1 ++ ":" ++ pad2 1 ++ ":" ++ pad2 1 :=
  ⟨duration_formatting.2.2.2.1 (-7) (by decide),
   duration_formatting.2.2.2.2.1 65 (by decide) (by decide),
   duration_formatting.2.2.2.2.2 3661 (by decide)⟩

/-- C1: the onhook route publishes exactly the two events `ended` then
`onhook`, the offhook route publishes exactly `reachable` then `offhook`,
in those fixed orders, every publish precedes the HTTP response in the
handler body, and the response is 200. -/
theorem dual_publish_routes (d : QueryMap) :
    emittedEvents (routeActions Route.onhook d) = [(SKind.ended, d), (SKind.onhook, d)] ∧
    responseOf (routeActions Route.onhook d) = some (200, "OK") ∧
    emitsBeforeResponse (routeActions Route.onhook d) = true ∧
    emittedEvents (routeActions Route.offhook d) = [(SKind.reachable, d), (SKind.offhook, d)] ∧
    responseOf (routeActions Route.offhook d) = some (200, "OK") ∧
    emitsBeforeResponse (routeActions Route.offhook d) = true :=
  ⟨rfl, rfl, rfl, rfl, rfl, rfl⟩

/-- C2 counterexample: the route handlers of `_build_app` contain no
try/except, so a dispatch that raises propagates out of the handler body and
the handler does not produce the 200 response: run the onhook handler with a
subscriber that raises and watch the exception escape. -/
theorem callback_route_no_catch_cex :
    runActions (fun _ _ => Except.error "subscriber raised") (routeActions Route.onhook []) =
      Except.error "subscriber raised" ∧
    (Except.error "subscriber raised" : Except String (Nat × String)) ≠
      Except.ok (200, "OK") :=
  ⟨rfl, fun h => Except.noConfusion h⟩

/-- C2 amended: the route handlers respond `200 OK` (body `ok` on the health
route) exactly when query parsing and signal dispatch complete without
raising; the handlers themselves contain no exception handling, so nothing is
caught or logged inside them. -/
theorem callback_routes_200_when_dispatch_ok
    (emit : SKind → QueryMap → Except String Unit) (r : Route) (d : QueryMap)
    (hok : ∀ k x, emit k x = Except.ok ()) :
    runActions emit (routeActions r d) =
      Except.ok (200, if r = Route.health then "ok" else "OK") := by
  cases r <;> simp [routeActions, runActions, hok]

/-- Witness for the amended C2 theorem at a concrete route, query map and
dispatch function. -/
theorem callback_routes_200_witness :
    runActions (fun _ _ => Except.ok ()) (routeActions Route.onhook [("remote", "x")]) =
      Except.ok (200, "OK") :=
  callback_routes_200_when_dispatch_ok (fun _ _ => Except.ok ()) Route.onhook
    [("remote", "x")] (fun _ _ => rfl)

/-- The per-port construction loop returns the first candidate accepted by
the bind predicate. -/
lemma tryBindPorts_eq_find (bindOk : Nat → Bool) (l : List Nat) :
    tryBindPorts bindOk l = l.find? bindOk := by
  induction l with
  | nil => rfl
  | cons p rest ih =>
      by_cases hp : bindOk p = true
      · simp [tryBindPorts, actionUrlServerInit, List.find?, hp]
      · simp only [Bool.not_eq_true] at hp
        simp [tryBindPorts, actionUrlServerInit, List.find?, hp, ih]

/-- C6: starting the callback server tries the desired port and then the 20
subsequent ports; each failed bind surfaces from the server constructor as a
hard error; the first successful bind wins; and when every candidate fails,
the start operation ends with no server started and no phone configuration
attempted. -/
theorem port_selection_policy (bindOk : Nat → Bool) (desired : Nat) :
    candidate_ports desired =
      [desired, desired + 1, desired + 2, desired + 3, desired + 4, desired + 5,
       desired + 6, desired + 7, desired + 8, desired + 9, desired + 10,
       desired + 11, desired + 12, desired + 13, desired + 14, desired + 15,
       desired + 16, desired + 17, desired + 18, desired + 19, desired + 20] ∧
    (∀ p, bindOk p = false →
      actionUrlServerInit bindOk p = Except.error "OSError: port unavailable") ∧
    (start_action_server bindOk desired).server = (candidate_ports desired).find? bindOk ∧
    ((∀ p ∈ candidate_ports desired, bindOk p = false) →
      start_action_server bindOk desired = { server := none, configuredPhone := false }) := by
  refine ⟨rfl, ?_, ?_, ?_⟩
  · intro p hp
    simp [actionUrlServerInit, hp]
  · rw [start_action_server, tryBindPorts_eq_find]
    cases h : (candidate_ports desired).find? bindOk <;> simp [h]
  · intro hall
    have hfind : (candidate_ports desired).find? bindOk = none := by
      apply List.find?_eq_none.mpr
      intro p hp
      simp [hall p hp]
    rw [start_action_server, tryBindPorts_eq_find, hfind]

/-- Witness for C6 at a concrete bind predicate that rejects every port:
the hypotheses are discharged at `desired = 58231`. -/
theorem port_selection_policy_witness :
    actionUrlServerInit (fun _ => false) 58231 = Except.error "OSError: port unavailable" ∧
    start_action_server (fun _ => false) 58231 =
      { server := none, configuredPhone := false } :=
  ⟨(port_selection_policy (fun _ => false) 58231).2.1 58231 rfl,
   (port_selection_policy (fun _ => false) 58231).2.2.2 (fun _ _ => rfl)⟩

/-- C3: `answer` always attempts `ENTER` first; it attempts `OFFHOOK` exactly
when the `ENTER` attempt does not yield a status in `[200, 400)` (bad status
or connection failure); it succeeds on the first attempt whose status is in
`[200, 400)`; and it returns the descriptive failure message exactly when
both attempts fail. -/
theorem answer_enter_then_offhook (net : Net) (c : Client) :
    (answer net c).snd.head? = some "ENTER" ∧
    ("OFFHOOK" ∈ (answer net c).snd ↔
      attemptOk (send_request net (c.cmd_url ++ "key=" ++ "ENTER")) = false) ∧
    ((answer net c).fst.fst = true ↔
      (attemptOk (send_request net (c.cmd_url ++ "key=" ++ "ENTER")) ||
       attemptOk (send_request net (c.cmd_url ++ "key=" ++ "OFFHOOK"))) = true) ∧
    (attemptOk (send_request net (c.cmd_url ++ "key=" ++ "ENTER")) = true →
      answer net c = ((true, "Answered via " ++ "ENTER"), ["ENTER"])) ∧
    (attemptOk (send_request net (c.cmd_url ++ "key=" ++ "ENTER")) = false →
      attemptOk (send_request net (c.cmd_url ++ "key=" ++ "OFFHOOK")) = true →
      answer net c = ((true, "Answered via " ++ "OFFHOOK"), ["ENTER", "OFFHOOK"])) ∧
    (attemptOk (send_request net (c.cmd_url ++ "key=" ++ "ENTER")) = false →
      attemptOk (send_request net (c.cmd_url ++ "key=" ++ "OFFHOOK")) = false →
      answer net c =
        ((false, "Failed to answer call using keys: ENTER, OFFHOOK"),
         ["ENTER", "OFFHOOK"])) := by
  cases he : send_request net (c.cmd_url ++ "key=" ++ "ENTER") with
  | ok s =>
      by_cases hs : isSuccessStatus s = true
      · simp [answer, answerLoop, he, hs, attemptOk]
      · simp only [Bool.not_eq_true] at hs
        cases ho : send_request net (c.cmd_url ++ "key=" ++ "OFFHOOK") with
        | ok s2 =>
            by_cases hs2 : isSuccessStatus s2 = true
            · simp [answer, answerLoop, he, ho, hs, hs2, attemptOk]
            · simp only [Bool.not_eq_true] at hs2
              simp [answer, answerLoop, he, ho, hs, hs2, attemptOk]
        | error e2 => simp [answer, answerLoop, he, ho, hs, attemptOk]
  | error e =>
      cases ho : send_request net (c.cmd_url ++ "key=" ++ "OFFHOOK") with
      | ok s2 =>
          by_cases hs2 : isSuccessStatus s2 = true
          · simp [answer, answerLoop, he, ho, hs2, attemptOk]
          · simp only [Bool.not_eq_true] at hs2
            simp [answer, answerLoop, he, ho, hs2, attemptOk]
      | error e2 => simp [answer, answerLoop, he, ho, attemptOk]

/-- Witness for C3 at a network where the `ENTER` attempt fails with a
connection error and the `OFFHOOK` attempt returns status 200. -/
theorem answer_enter_then_offhook_witness :
    answer
        (fun u => if u = "https://ip/command.htm?key=OFFHOOK" then Except.ok 200
          else Except.error "down")
        { ip := "ip", username := "u", password := "p" } =
      ((true, "Answered via " ++ "OFFHOOK"), ["ENTER", "OFFHOOK"]) :=
  (answer_enter_then_offhook
      (fun u => if u = "https://ip/command.htm?key=OFFHOOK" then Except.ok 200
        else Except.error "down")
      { ip := "ip", username := "u", password := "p" }).2.2.2.2.1
    (by decide) (by decide)

/-- C4 counterexample: `Snom.key_events` transmits its argument verbatim and
inserts no semicolon separators, so sendKeyEvents of `123` and of `1;2;3`
produce different wire commands at the PhoneClient level. -/
theorem key_events_verbatim_cex :
    keyEventsWire { ip := "10.0.0.1", username := "u", password := "p" } "123" ≠
      keyEventsWire { ip := "10.0.0.1", username := "u", password := "p" } "1;2;3" := by
  decide

/-- C4 amended: the semicolon insertion is performed by the UI dial path
(`DialWindow.dial` with shift held, lines 222-226), not by `Snom.key_events`:
for any text without a semicolon the dial path inserts `;` between each
character before calling `key_events`, so dialing the raw text produces
exactly the wire command of the pre-separated text. -/
theorem dial_path_inserts_semicolons (c : Client) (l : List Char)
    (hl : l.contains ';' = false) :
    dialKeyEventsArg (String.mk l) = encodeUrl (String.mk (interChars l)) ∧
    keyEventsWire c (dialKeyEventsArg (String.mk l)) =
      keyEventsWire c (dialKeyEventsArg (String.mk (interChars l))) := by
  have h1 : dialKeyEventsArg (String.mk l) = encodeUrl (String.mk (interChars l)) := by
    unfold dialKeyEventsArg
    rw [show (String.mk l).data = l from rfl, hl]
    simp
  refine ⟨h1, ?_⟩
  match l with
  | [] => rfl
  | [x] => rfl
  | x :: y :: rest =>
      have h2 : (interChars (x :: y :: rest)).contains ';' = true := by
        simp [interChars]
      rw [h1]
      congr 1
      unfold dialKeyEventsArg
      rw [show (String.mk (interChars (x :: y :: rest))).data =
            interChars (x :: y :: rest) from rfl, h2]
      simp

/-- Witness for the amended C4 theorem at the text `123`. -/
theorem dial_path_inserts_semicolons_witness :
    dialKeyEventsArg (String.mk ['1', '2', '3']) =
      encodeUrl (String.mk (interChars ['1', '2', '3'])) ∧
    keyEventsWire { ip := "10.0.0.1", username := "u", password := "p" }
        (dialKeyEventsArg (String.mk ['1', '2', '3'])) =
      keyEventsWire { ip := "10.0.0.1", username := "u", password := "p" }
        (dialKeyEventsArg (String.mk (interChars ['1', '2', '3']))) :=
  dial_path_inserts_semicolons { ip := "10.0.0.1", username := "u", password := "p" }
    ['1', '2', '3'] (by decide)

/-- C10: `dial`, `key_events`, `hangup` and `hangup_all` propagate a
connection error to the caller exactly when the underlying request fails
(they apply no catch of their own), while `answer`, `test_control` and
`set_action_urls` catch the connection error internally and return a
`(false, message)` result. -/
theorem connection_error_policy (net : Net) (c : Client)
    (number events base_url m : String) :
    (∀ e, dial net c number = Except.error e ↔
      net (encodeUrl (c.cmd_url ++ "number=" ++ number)) = Except.error e) ∧
    (∀ e, key_events net c events = Except.error e ↔
      net (encodeUrl (c.cmd_url ++ "key=" ++ events)) = Except.error e) ∧
    (∀ e, hangup net c = Except.error e ↔
      net (encodeUrl (c.cmd_url ++ "key=CANCEL")) = Except.error e) ∧
    (∀ e, hangup_all net c = Except.error e ↔
      net (encodeUrl (c.cmd_url ++ "RELEASE_ALL_CALLS")) = Except.error e) ∧
    ((∀ u, net u = Except.error m) →
      answer net c =
        ((false, "Failed to answer call using keys: ENTER, OFFHOOK"),
         ["ENTER", "OFFHOOK"]) ∧
      test_control net c = (false, "Connection failed: " ++ m) ∧
      set_action_urls net c base_url = (false, "Failed to update Action URLs: " ++ m)) := by
  refine ⟨?_, ?_, ?_, ?_, ?_⟩
  · intro e
    cases h : net (encodeUrl (c.cmd_url ++ "number=" ++ number)) <;>
      simp [dial, send_request, h, Except.map]
  · intro e
    cases h : net (encodeUrl (c.cmd_url ++ "key=" ++ events)) <;>
      simp [key_events, send_request, h, Except.map]
  · intro e
    cases h : net (encodeUrl (c.cmd_url ++ "key=CANCEL")) <;>
      simp [hangup, send_request, h, Except.map]
  · intro e
    cases h : net (encodeUrl (c.cmd_url ++ "RELEASE_ALL_CALLS")) <;>
      simp [hangup_all, send_request, h, Except.map]
  · intro hall
    refine ⟨?_, ?_, ?_⟩
    · simp [answer, answerLoop, send_request, hall]
    · simp [test_control, send_request, hall]
    · simp [set_action_urls, send_request, hall]

/-- Witness for C10 at a network that always fails with message `down`. -/
theorem connection_error_policy_witness :
    answer (fun _ => Except.error "down") { ip := "ip", username := "u", password := "p" } =
      ((false, "Failed to answer call using keys: ENTER, OFFHOOK"),
       ["ENTER", "OFFHOOK"]) ∧
    test_control (fun _ => Except.error "down")
        { ip := "ip", username := "u", password := "p" } =
      (false, "Connection failed: " ++ "down") ∧
    set_action_urls (fun _ => Except.error "down")
        { ip := "ip", username := "u", password := "p" } "http://b" =
      (false, "Failed to update Action URLs: " ++ "down") :=
  (connection_error_policy (fun _ => Except.error "down")
      { ip := "ip", username := "u", password := "p" } "5" "1" "http://b"
      "down").2.2.2.2 (fun _ => rfl)

/-- C7: the probe sends `key=OFFHOOK` immediately and schedules `key=ONHOOK`
500 ms later; when the body does not raise, it reports success exactly when a
reachable event arrives before the timeout; and on every exit path (success,
timeout, or exception) the temporary subscription is removed, so a later
reachable publish is not delivered to the stale handler. -/
theorem reachability_probe (subs : List Nat) (hid : Nat) (arrival : Option Nat)
    (exn : Option String) (timeoutMs : Nat) :
    (verify_phone_reachability subs hid arrival exn timeoutMs).schedule =
      [(0, "key=OFFHOOK"), (500, "key=ONHOOK")] ∧
    (exn = none →
      ((verify_phone_reachability subs hid arrival exn timeoutMs).outcome =
          Except.ok true ↔ ∃ t, arrival = some t ∧ t < timeoutMs)) ∧
    (hid ∉ subs →
      (verify_phone_reachability subs hid arrival exn timeoutMs).finalSubs = subs ∧
      deliversTo (verify_phone_reachability subs hid arrival exn timeoutMs).finalSubs
        hid = false) := by
  refine ⟨rfl, ?_, ?_⟩
  · intro he; subst he
    cases arrival with
    | none => simp [verify_phone_reachability]
    | some t => simp [verify_phone_reachability]
  · intro hnot
    have hfilter : (subs ++ [hid]).filter (fun x => decide (x ≠ hid)) = subs := by
      rw [List.filter_append]
      have h1 : subs.filter (fun x => decide (x ≠ hid)) = subs := by
        apply List.filter_eq_self.mpr
        intro a ha
        simp only [decide_eq_true_iff]
        intro hEq
        exact hnot (hEq ▸ ha)
      have h2 : [hid].filter (fun x => decide (x ≠ hid)) = [] := by simp
      rw [h1, h2, List.append_nil]
    have hfinal : (verify_phone_reachability subs hid arrival exn timeoutMs).finalSubs
        = subs := hfilter
    refine ⟨hfinal, ?_⟩
    rw [hfinal]
    simp [deliversTo, hnot]

/-- Witness for C7: a probe whose reachable event arrives at 120 ms with a
3000 ms timeout, over a dispatcher initially holding subscriber 7. -/
theorem reachability_probe_witness :
    (verify_phone_reachability [7] 9 (some 120) none 3000).outcome = Except.ok true ∧
    (verify_phone_reachability [7] 9 (some 120) none 3000).finalSubs = [7] ∧
    deliversTo (verify_phone_reachability [7] 9 (some 120) none 3000).finalSubs 9 =
      false :=
  ⟨((reachability_probe [7] 9 (some 120) none 3000).2.1 rfl).mpr ⟨120, rfl, by decide⟩,
   ((reachability_probe [7] 9 (some 120) none 3000).2.2 (by decide)).1,
   ((reachability_probe [7] 9 (some 120) none 3000).2.2 (by decide)).2⟩

/-- Scanning passes over a brace-free text segment unchanged. -/
lemma subScan_append_no_brace (repl : List Char → List Char) :
    ∀ (pre rest : List Char), '{' ∉ pre →
      subScan repl none (pre ++ rest) = pre ++ subScan repl none rest := by
  intro pre
  induction pre with
  | nil => intro rest _; rfl
  | cons c cs ih =>
      intro rest hpre
      have hc : ¬(c = '{') := by
        intro h; subst h; exact hpre (List.mem_cons_self _ _)
      have hcs : '{' ∉ cs := fun h => hpre (List.mem_cons_of_mem c h)
      simp [subScan, hc, ih rest hcs]

/-- Consuming the word characters of a placeholder key inside the scanner
state and closing it with a brace invokes the replacement on the full key. -/
lemma subScan_key (repl : List Char → List Char) (post : List Char) :
    ∀ (key acc : List Char), (∀ ch ∈ key, isWordChar ch = true) →
      acc.reverse ++ key ≠ [] →
      subScan repl (some acc) (key ++ '}' :: post) =
        repl (acc.reverse ++ key) ++ subScan repl none post := by
  intro key
  induction key with
  | nil =>
      intro acc _ hne
      have hacc : acc ≠ [] := by
        intro h; subst h; simp at hne
      rw [show subScan repl (some acc) ([] ++ '}' :: post) =
            repl acc.reverse ++ subScan repl none post from by
          simp [subScan, isWordChar, hacc]]
      rw [List.append_nil]
  | cons k ks ih =>
      intro acc hword hne
      have hk : isWordChar k = true := hword k (List.mem_cons_self _ _)
      have hks : ∀ ch ∈ ks, isWordChar ch = true :=
        fun ch h => hword ch (List.mem_cons_of_mem _ h)
      have hne2 : (k :: acc).reverse ++ ks ≠ [] := by simp
      rw [List.cons_append]
      rw [show subScan repl (some acc) (k :: (ks ++ '}' :: post)) =
            subScan repl (some (k :: acc)) (ks ++ '}' :: post) from by
          simp [subScan, hk]]
      rw [ih (k :: acc) hks hne2]
      have harg : (k :: acc).reverse ++ ks = acc.reverse ++ k :: ks := by simp
      rw [harg]

/-- One placeholder at the head of the scan is substituted. -/
lemma subScan_placeholder (repl : List Char → List Char) (key post : List Char)
    (hkey : key ≠ []) (hword : ∀ ch ∈ key, isWordChar ch = true) :
    subScan repl none ('{' :: (key ++ '}' :: post)) =
      repl key ++ subScan repl none post := by
  rw [show subScan repl none ('{' :: (key ++ '}' :: post)) =
        subScan repl (some []) (key ++ '}' :: post) from by simp [subScan]]
  rw [subScan_key repl post key [] hword (by simpa using hkey)]
  simp

lemma utf8Bytes_ne_nil (c : Char) : utf8Bytes c ≠ [] := by
  unfold utf8Bytes
  intro h
  split at h
  · simp at h
  · split at h
    · simp at h
    · split at h
      · simp at h
      · simp at h

lemma quotePlusByte_ne_nil (b : Nat) : quotePlusByte b ≠ [] := by
  unfold quotePlusByte percentByte
  intro h
  repeat' split at h
  all_goals simp at h

/-- C8: each well-formed placeholder token in a template is replaced by the
URL-encoded value the source computes for that name; `timestamp` resolves to
the URL-encoded current time, which is non-empty whenever the time string is;
a known field resolves to the raw lookup in the field map (empty when
absent), and an unknown placeholder also falls back to the raw lookup and to
the empty string when the key is absent; concrete instances: `call_id` with
value `A B` yields `A+B` and an unmatched `nope` yields the empty string. -/
theorem placeholder_substitution :
    (∀ (pre key post : List Char) (data : QueryMap) (now : String),
      '{' ∉ pre → key ≠ [] → (∀ ch ∈ key, isWordChar ch = true) →
      fill_placeholder_url (String.mk (pre ++ '{' :: (key ++ '}' :: post))) data now =
        String.mk (pre ++ (replEncoded data now (String.mk key)).data ++
          subScan (fun k => (replEncoded data now (String.mk k)).data) none post)) ∧
    (∀ (data : QueryMap) (now : String),
      replEncoded data now "timestamp" = quotePlus now) ∧
    (∀ now : String, now.data ≠ [] → (quotePlus now).data ≠ []) ∧
    (∀ (data : QueryMap) (now k : String), knownFields.contains k = true →
      replRaw data now k = (dataGet data k).getD "") ∧
    (∀ (data : QueryMap) (now k : String), knownFields.contains k = false →
      k ≠ "timestamp" → replRaw data now k = (dataGet data k).getD "") ∧
    (∀ (data : QueryMap) (now k : String), knownFields.contains k = false →
      k ≠ "timestamp" → dataGet data k = none → replEncoded data now k = "") ∧
    fill_placeholder_url "http://x/y?c={call_id}&t={timestamp}" [("call_id", "A B")]
        "2026-10-12T00:00:00" = "http://x/y?c=A+B&t=2026-10-12T00%3A00%3A00" ∧
    fill_placeholder_url "http://x/y?n={nope}" [("call_id", "A B")] "T" =
      "http://x/y?n=" := by
  refine ⟨?_, ?_, ?_, ?_, ?_, ?_, ?_, ?_⟩
  · intro pre key post data now hpre hkey hword
    unfold fill_placeholder_url
    rw [show (String.mk (pre ++ '{' :: (key ++ '}' :: post))).data =
          pre ++ '{' :: (key ++ '}' :: post) from rfl]
    rw [subScan_append_no_brace _ pre _ hpre]
    rw [subScan_placeholder _ key post hkey hword]
    exact congrArg String.mk (List.append_assoc _ _ _).symm
  · intro data now
    simp [replEncoded, replRaw, valuesGet]
  · intro now hne
    show cMap quotePlusByte (cMap utf8Bytes now.data) ≠ []
    obtain ⟨c, cs, hd⟩ := List.exists_cons_of_ne_nil hne
    rw [hd]
    rw [show cMap utf8Bytes (c :: cs) = utf8Bytes c ++ cMap utf8Bytes cs from rfl]
    obtain ⟨b, bs, hb⟩ := List.exists_cons_of_ne_nil (utf8Bytes_ne_nil c)
    rw [hb, List.cons_append]
    rw [show cMap quotePlusByte (b :: (bs ++ cMap utf8Bytes cs)) =
          quotePlusByte b ++ cMap quotePlusByte (bs ++ cMap utf8Bytes cs) from rfl]
    simp [quotePlusByte_ne_nil b]
  · intro data now k hk
    have hts : k ≠ "timestamp" := by
      intro h; rw [h] at hk
      exact absurd hk (by decide)
    have hmem : k ∈ knownFields := by simpa using hk
    simp [replRaw, valuesGet, hts, hmem]
  · intro data now k hk hts
    have hmem : k ∉ knownFields := by simpa using hk
    simp [replRaw, valuesGet, hts, hmem]
  · intro data now k hk hts hnone
    have hmem : k ∉ knownFields := by simpa using hk
    simp [replEncoded, replRaw, valuesGet, hts, hmem, hnone]
    rfl
  · rfl
  · rfl

/-- Witness for C8: the general substitution statement applied at a concrete
template decomposition, data map and time value. -/
theorem placeholder_substitution_witness :
    fill_placeholder_url
        (String.mk (['q', '='] ++ '{' :: (['c', 'a', 'l', 'l', '_', 'i', 'd'] ++ '}' :: ['!'])))
        [("call_id", "A B")] "T" =
      String.mk (['q', '='] ++
        (replEncoded [("call_id", "A B")] "T"
          (String.mk ['c', 'a', 'l', 'l', '_', 'i', 'd'])).data ++
        subScan (fun k => (replEncoded [("call_id", "A B")] "T" (String.mk k)).data)
          none ['!']) :=
  placeholder_substitution.1 ['q', '='] ['c', 'a', 'l', 'l', '_', 'i', 'd'] ['!']
    [("call_id", "A B")] "T" (by decide) (by decide) (by decide)

end SnomDialer
